import Mathlib

/-!
Verification of the FinSight query-time RAG pipeline.

Shallow embedding of the core of the repository:
  backend/app/services/rag_engine.py   (RAGEngine)
  backend/app/api/endpoints.py         (chat_stream endpoint, request models)
  backend/app/core/config.py           (Settings)
  backend/app/main.py                  (lifespan startup handler)

Modelling conventions:
  - Relevance scores are Python floats used only for defaulting and ordering
    comparisons; they are modelled as rationals.
  - The external collaborators (OpenAI embeddings, Pinecone index, chat LLM)
    are parameters: an embedder function, a store function, and the token
    chunks the LLM stream yields. A Bool flag models the LLM stream raising
    an exception after its yielded chunks instead of finishing normally.
  - Calls to external services are recorded in an explicit trace so that
    validate-before-call properties can be stated.
  - Python dict access with .get and a default is modelled with Option.getD.
-/

namespace FinSight

/-- Metadata dict stored on a Pinecone match; each key may be absent. -/
structure MatchMetadata where
  text_content : Option String
  section_header : Option String
  source_url : Option String
  year : Option String
  deriving DecidableEq

/-- Dict with all metadata keys absent, the default for match.get applied to the metadata key. -/
def MatchMetadata.empty : MatchMetadata :=
  ⟨none, none, none, none⟩

/-- Raw match returned by the Pinecone index query; every field may be absent. -/
structure StoreMatch where
  id : Option String
  score : Option ℚ
  metadata : Option MatchMetadata
  deriving DecidableEq

/-- Score of a match as seen through the default applied by retrieve_context. -/
def matchScore (m : StoreMatch) : ℚ :=
  m.score.getD 0

/-- Formatted context dict built by RAGEngine.retrieve_context; all six fields total. -/
structure Context where
  id : String
  score : ℚ
  text_content : String
  section_header : String
  source_url : String
  year : String
  deriving DecidableEq

/-- Formatting of one Pinecone match into a context dict, from the loop body of
retrieve_context: each absent value is replaced by its documented default. -/
def formatMatch (m : StoreMatch) : Context :=
  let md := m.metadata.getD MatchMetadata.empty
  { id := m.id.getD ""
    score := m.score.getD 0
    text_content := md.text_content.getD ""
    section_header := md.section_header.getD "Unknown Section"
    source_url := md.source_url.getD ""
    year := md.year.getD "" }

/-- LangChain message, one of SystemMessage, HumanMessage, AIMessage. -/
inductive Message where
  | system (content : String)
  | human (content : String)
  | ai (content : String)
  deriving DecidableEq

/-- Record of one call made to an external collaborator. -/
inductive ExternalCall where
  | embed (text : String)
  | storeQuery (ns : String) (topK : Nat)
  | llmStream (messages : List Message)
  | llmInvoke (messages : List Message)
  deriving DecidableEq

/-- Event of the line-delimited JSON streaming wire protocol produced by
generate_response_stream. The observed protocol has exactly the three event
types contexts, token and done; no error event type exists in the source. -/
inductive StreamEvent where
  | contexts (data : List Context)
  | token (data : String)
  | done
  deriving DecidableEq

/-- Terminal events of the streaming protocol: done is the only terminal event
type that the source can emit. -/
def StreamEvent.isTerminal : StreamEvent → Bool
  | .done => true
  | _ => false

/-- Application settings from backend/app/core/config.py with their declared
defaults; the two API keys and the host come from the environment. -/
structure Settings where
  openai_api_key : String
  openai_embedding_model : String
  openai_chat_model : String
  pinecone_api_key : String
  pinecone_index_name : String
  pinecone_host : String
  top_k_results : Nat
  supported_tickers : List String
  deriving DecidableEq

/-- Settings as produced by get_settings: field defaults from the Settings
class, the keys and host taken from the environment. -/
def mkSettings (openaiKey pineconeKey host : String) : Settings :=
  { openai_api_key := openaiKey
    openai_embedding_model := "text-embedding-3-small"
    openai_chat_model := "gpt-4o-mini"
    pinecone_api_key := pineconeKey
    pinecone_index_name := "finsight-index"
    pinecone_host := host
    top_k_results := 5
    supported_tickers := ["AAPL", "MSFT", "GOOGL"] }

/-- Python str.upper modelled per character; ticker symbols are ASCII, where
this agrees with Python. Defined through the character list so that it
evaluates inside the kernel. -/
def pyUpper (s : String) : String :=
  ⟨s.data.map Char.toUpper⟩

/-- Rendering of a Python list of strings inside an f-string, as repr does. -/
def pyListRepr (xs : List String) : String :=
  "[" ++ String.intercalate ", " (xs.map (fun x => "\x27" ++ x ++ "\x27")) ++ "]"

/-- Embedding vector; the dimension plays no role in the verified claims. -/
abbrev Vec := List ℚ

/-- Type of the embedding collaborator behind OpenAIEmbeddings.aembed_query. -/
abbrev Embedder := String → Vec

/-- Type of the Pinecone index query collaborator: vector, namespace, top_k. -/
abbrev Store := Vec → String → Nat → List StoreMatch

/-- RAGEngine.embed_query: delegates directly to the embedding service with no
validation of any kind; the trace records the external embedding call. -/
def embed_query (emb : Embedder) (query : String) : Vec × List ExternalCall :=
  (emb query, [ExternalCall.embed query])

/-- RAGEngine.retrieve_context: embeds the query, queries the index with the
upper-cased ticker as namespace and top_k (defaulting to the configured
top_k_results), and formats each returned match. -/
def retrieve_context (emb : Embedder) (store : Store) (s : Settings)
    (query ticker : String) (top_k : Option Nat) : List Context × List ExternalCall :=
  let topK := top_k.getD s.top_k_results
  let (query_embedding, ecalls) := embed_query emb query
  let ms := store query_embedding (pyUpper ticker) topK
  (ms.map formatMatch, ecalls ++ [ExternalCall.storeQuery (pyUpper ticker) topK])

/-- Fixed fallback sentence that rule 4 of the system prompt instructs the
model to say when the context is insufficient. -/
def fallbackAnswer : String :=
  "Based on the available SEC filings, I don\x27t have sufficient information to answer this question."

/-- Literal prompt text before the fallback sentence, from _build_system_prompt. -/
def promptRulesBefore (ticker : String) : String :=
  "You are a senior financial analyst specializing in SEC 10-K filings analysis for " ++ ticker ++ ".\n\nYour task is to provide accurate, insightful analysis based ONLY on the provided context from official SEC filings.\n\n## CRITICAL RULES:\n1. Answer based ONLY on the context provided below. Do not use external knowledge.\n2. You MUST cite the \x27section_header\x27 (e.g., \"Risk Factors\", \"Business Overview\") for EVERY claim you make.\n3. Use citation format: [Section: Risk Factors, 2023]\n4. If the context doesn\x27t contain enough information to answer, say \""

/-- Literal prompt text between the fallback sentence and the context block. -/
def promptRulesAfter : String :=
  "\"\n5. Be precise with financial figures and dates.\n6. Maintain a professional, analytical tone appropriate for institutional investors.\n\n## CONTEXT FROM SEC 10-K FILINGS:\n"

/-- Literal prompt text after the context block, from _build_system_prompt. -/
def promptTail : String :=
  "\n\n## RESPONSE FORMAT:\n- Start with a direct answer to the question\n- Support each point with citations from the context\n- If relevant, highlight key risks or opportunities\n- Keep responses concise but comprehensive"

/-- Rendering of a single retrieved context inside the prompt context block. -/
def renderContext (ctx : Context) : String :=
  "[Source: " ++ ctx.section_header ++ " | Year: " ++ ctx.year ++ "]\n" ++ ctx.text_content

/-- Joined context block of _build_system_prompt: the rendered contexts in
list order separated by blank lines. -/
def context_text (contexts : List Context) : String :=
  String.intercalate "\n\n" (contexts.map renderContext)

/-- RAGEngine._build_system_prompt: the literal instruction text around the
joined context block. -/
def build_system_prompt (contexts : List Context) (ticker : String) : String :=
  promptRulesBefore ticker ++ fallbackAnswer ++ promptRulesAfter ++ context_text contexts ++ promptTail

/-- Everything of the system prompt that precedes the context block. -/
def promptBefore (ticker : String) : String :=
  promptRulesBefore ticker ++ fallbackAnswer ++ promptRulesAfter

/-- History entry as the dict passed to _format_chat_history; keys accessed
with .get and a default, so each is modelled as possibly absent. -/
structure Turn where
  role : Option String
  content : Option String
  deriving DecidableEq

/-- Role string of a turn as read by _format_chat_history. -/
def roleOf (t : Turn) : String :=
  t.role.getD ""

/-- Content string of a turn as read by _format_chat_history. -/
def contentOf (t : Turn) : String :=
  t.content.getD ""

/-- Loop body of _format_chat_history: role user becomes a human message,
role assistant an assistant message, anything else is skipped. -/
def formatTurn (msg : Turn) : Option Message :=
  let role := roleOf msg
  let content := contentOf msg
  if role = "user" then some (Message.human content)
  else if role = "assistant" then some (Message.ai content)
  else none

/-- RAGEngine._format_chat_history: the append loop over the history is the
filterMap of its body. -/
def format_chat_history (history : List Turn) : List Message :=
  history.filterMap formatTurn

/-- Message assembly of generate_response_stream: system prompt, then the
formatted history, then the current query as a human message. -/
def stream_messages (contexts : List Context) (query ticker : String)
    (history : List Turn) : List Message :=
  let system_prompt := build_system_prompt contexts ticker
  let messages := [Message.system system_prompt]
  let messages := messages ++ format_chat_history history
  let messages := messages ++ [Message.human query]
  messages

/-- Message assembly of generate_response: system prompt, then the formatted
history, then the current query as a human message. -/
def sync_messages (contexts : List Context) (query ticker : String)
    (history : List Turn) : List Message :=
  let system_prompt := build_system_prompt contexts ticker
  let messages := [Message.system system_prompt]
  let messages := messages ++ format_chat_history history
  let messages := messages ++ [Message.human query]
  messages

/-- Observable outcome of one run of the async generator returned by
generate_response_stream: the emitted protocol events in order, whether the
run ended by an exception from the LLM stream instead of finishing, and the
external calls made. -/
structure StreamRun where
  events : List StreamEvent
  aborted : Bool
  calls : List ExternalCall
  deriving DecidableEq

/-- RAGEngine.generate_response_stream. The LLM stream is the chunk list
together with genFails: after yielding the chunks the stream either signals
end of output (genFails false) or raises (genFails true). The generator
yields the contexts event, then one token event per chunk with non-empty
content, then the done event; an exception from the LLM stream propagates,
so in that case no further event is yielded. -/
def generate_response_stream (emb : Embedder) (store : Store) (s : Settings)
    (query ticker : String) (history : Option (List Turn))
    (chunks : List String) (genFails : Bool) : StreamRun :=
  let history := history.getD []
  let (contexts, rcalls) := retrieve_context emb store s query ticker none
  let messages := stream_messages contexts query ticker history
  { events :=
      StreamEvent.contexts contexts ::
        ((chunks.filter (fun c => !c.isEmpty)).map StreamEvent.token ++
          (if genFails then [] else [StreamEvent.done]))
    aborted := genFails
    calls := rcalls ++ [ExternalCall.llmStream messages] }

/-- Result value of the non-streaming path generate_response. -/
structure SyncResult where
  response : String
  contexts : List Context
  ticker : String
  deriving DecidableEq

/-- RAGEngine.generate_response: same retrieval and message assembly, one
blocking LLM invocation whose reply text is the llmText parameter. -/
def generate_response (emb : Embedder) (store : Store) (s : Settings)
    (query ticker : String) (history : Option (List Turn))
    (llmText : String) : SyncResult × List ExternalCall :=
  let history := history.getD []
  let (contexts, rcalls) := retrieve_context emb store s query ticker none
  let messages := sync_messages contexts query ticker history
  ({ response := llmText, contexts := contexts, ticker := ticker },
    rcalls ++ [ExternalCall.llmInvoke messages])

/-- Chat message of the request body; pydantic requires both fields. -/
structure ChatMessage where
  role : String
  content : String
  deriving DecidableEq

/-- Conversion of a request chat message by model_dump: a dict with both keys
present. -/
def ChatMessage.toTurn (m : ChatMessage) : Turn :=
  ⟨some m.role, some m.content⟩

/-- Request body of the chat endpoints; pydantic enforces min_length 1 on
message before the endpoint body runs. -/
structure ChatRequest where
  message : String
  ticker : String
  history : List ChatMessage
  deriving DecidableEq

/-- Outcome of the chat endpoint: an HTTPException with status and detail, or
the streaming response. -/
inductive ChatStreamResult where
  | httpError (status : Nat) (detail : String)
  | streaming (run : StreamRun)
  deriving DecidableEq

/-- Detail string of the 400 raised for an unsupported ticker. -/
def unsupportedTickerDetail (ticker : String) (supported : List String) : String :=
  "Unsupported ticker: " ++ ticker ++ ". Supported tickers: " ++ pyListRepr supported

/-- Body of the chat_stream endpoint, entered only after pydantic accepted the
request: validates the ticker against the allow-list, then the two API keys,
and only then builds the streaming response over generate_response_stream. -/
def chat_stream_endpoint (s : Settings) (emb : Embedder) (store : Store)
    (chunks : List String) (genFails : Bool) (r : ChatRequest) :
    ChatStreamResult × List ExternalCall :=
  let ticker := pyUpper r.ticker
  if ticker ∈ s.supported_tickers then
    if s.openai_api_key = "" then
      (ChatStreamResult.httpError 500 "OpenAI API key not configured", [])
    else if s.pinecone_api_key = "" then
      (ChatStreamResult.httpError 500 "Pinecone API key not configured", [])
    else
      let history := r.history.map ChatMessage.toTurn
      let run := generate_response_stream emb store s r.message ticker (some history) chunks genFails
      (ChatStreamResult.streaming run, run.calls)
  else
    (ChatStreamResult.httpError 400 (unsupportedTickerDetail ticker s.supported_tickers), [])

/-- Full handling of a POST to the chat endpoint: pydantic validation of the
request model first (message needs min_length 1, yielding a 422 validation
error before the endpoint body runs), then the endpoint body. -/
def handle_chat (s : Settings) (emb : Embedder) (store : Store)
    (chunks : List String) (genFails : Bool) (r : ChatRequest) :
    ChatStreamResult × List ExternalCall :=
  if r.message.isEmpty then
    (ChatStreamResult.httpError 422 "String should have at least 1 character", [])
  else
    chat_stream_endpoint s emb store chunks genFails r

/-- Startup section of the lifespan handler in backend/app/main.py: prints the
banner lines, prints a warning line for each missing API key, and always
proceeds to yield; no code path raises, so the result is always ok with the
printed lines. -/
def lifespan_startup (s : Settings) : Except String (List String) :=
  Except.ok
    (["Starting FinSight RAG API...",
      "Supported tickers: " ++ pyListRepr s.supported_tickers,
      "Pinecone index: " ++ s.pinecone_index_name,
      "OpenAI model: " ++ s.openai_chat_model] ++
      (if s.openai_api_key = "" then ["WARNING: OPENAI_API_KEY not set!"] else []) ++
      (if s.pinecone_api_key = "" then ["WARNING: PINECONE_API_KEY not set!"] else []))

/-- Substring containment stated through an explicit split. -/
def containsSeg (s seg : String) : Prop :=
  ∃ a b, s = a ++ (seg ++ b)

/-! Helper lemmas shared by the claim theorems. -/

theorem string_append_assoc (a b c : String) : a ++ b ++ c = a ++ (b ++ c) := by
  rcases a with ⟨la⟩; rcases b with ⟨lb⟩; rcases c with ⟨lc⟩
  show String.mk (la ++ lb ++ lc) = String.mk (la ++ (lb ++ lc))
  rw [List.append_assoc]

theorem filter_terminal_tokens (ts : List String) :
    (ts.map StreamEvent.token).filter (fun e => e.isTerminal) = [] := by
  induction ts with
  | nil => rfl
  | cons a l ih => simp [StreamEvent.isTerminal, ih]

theorem done_not_mem_tokens (ts : List String) :
    StreamEvent.done ∉ ts.map StreamEvent.token := by
  simp

theorem isEmpty_false_of_ne (s : String) (h : s ≠ "") : s.isEmpty = false := by
  rcases hx : s.isEmpty with _ | _
  · rfl
  · exact absurd ((String.isEmpty_iff s).mp hx) h

theorem format_history_all_known (h : List Turn)
    (hr : ∀ t ∈ h, roleOf t = "user" ∨ roleOf t = "assistant") :
    format_chat_history h =
      h.map (fun t => if roleOf t = "user" then Message.human (contentOf t)
        else Message.ai (contentOf t)) := by
  induction h with
  | nil => rfl
  | cons a l ih =>
    have ha := hr a (List.mem_cons_self a l)
    have ih2 := ih (fun t ht => hr t (List.mem_cons_of_mem a ht))
    rcases ha with ha | ha
    · simpa [format_chat_history, List.filterMap_cons, formatTurn, ha] using ih2
    · simpa [format_chat_history, List.filterMap_cons, formatTurn, ha] using ih2

/-! Claim theorems. -/

/-- C1, counterexample: in a streaming run in which the Generator fails
immediately after the Contexts event has been emitted, the emitted events are
exactly the single Contexts event, so the stream is not closed by any
terminal event (Done never appears, and no Error event type exists). -/
theorem c1_counterexample_no_terminal_on_failure :
    (generate_response_stream (fun _ => []) (fun _ _ _ => []) (mkSettings "k" "p" "")
        "q" "AAPL" none [] true).events = [StreamEvent.contexts []] ∧
    StreamEvent.done ∉
      (generate_response_stream (fun _ => []) (fun _ _ _ => []) (mkSettings "k" "p" "")
        "q" "AAPL" none [] true).events := by
  constructor
  · rfl
  · decide

/-- C1 (amended): in every streaming run the first emitted event is the single
Contexts event. When the Generator does not fail, the Contexts event is
followed by one Token event per non-empty generated fragment, in generation
order, and the stream is closed by exactly one terminal Done event with
nothing after it. When the Generator fails after the Contexts event, the
emitted events are the Contexts event followed by the Token events produced
before the failure, and no terminal event of any kind closes the stream. -/
theorem c1_stream_event_protocol (emb : Embedder) (store : Store) (s : Settings)
    (q t : String) (h : Option (List Turn)) (chunks : List String) :
    (∀ genFails : Bool,
      (generate_response_stream emb store s q t h chunks genFails).events.head? =
        some (StreamEvent.contexts (retrieve_context emb store s q t none).1)) ∧
    (generate_response_stream emb store s q t h chunks false).events =
      StreamEvent.contexts (retrieve_context emb store s q t none).1 ::
        ((chunks.filter (fun c => !c.isEmpty)).map StreamEvent.token ++ [StreamEvent.done]) ∧
    (generate_response_stream emb store s q t h chunks false).events.getLast? =
      some StreamEvent.done ∧
    ((generate_response_stream emb store s q t h chunks false).events.filter
      (fun e => e.isTerminal)).length = 1 ∧
    (generate_response_stream emb store s q t h chunks true).events =
      StreamEvent.contexts (retrieve_context emb store s q t none).1 ::
        (chunks.filter (fun c => !c.isEmpty)).map StreamEvent.token ∧
    StreamEvent.done ∉ (generate_response_stream emb store s q t h chunks true).events := by
  have hF : (generate_response_stream emb store s q t h chunks false).events =
      StreamEvent.contexts (retrieve_context emb store s q t none).1 ::
        ((chunks.filter (fun c => !c.isEmpty)).map StreamEvent.token ++ [StreamEvent.done]) := rfl
  have hT : (generate_response_stream emb store s q t h chunks true).events =
      StreamEvent.contexts (retrieve_context emb store s q t none).1 ::
        (chunks.filter (fun c => !c.isEmpty)).map StreamEvent.token := by
    rw [show (generate_response_stream emb store s q t h chunks true).events =
        StreamEvent.contexts (retrieve_context emb store s q t none).1 ::
          ((chunks.filter (fun c => !c.isEmpty)).map StreamEvent.token ++ []) from rfl,
      List.append_nil]
  refine ⟨?_, hF, ?_, ?_, hT, ?_⟩
  · intro genFails
    cases genFails
    · rw [hF]; rfl
    · rw [hT]; rfl
  · rw [hF, ← List.cons_append, List.getLast?_concat]
  · rw [hF, List.filter_cons, List.filter_append, filter_terminal_tokens]
    rfl
  · rw [hT]
    simp

/-- C2: a request whose upper-cased ticker is not in the configured allow-list
is rejected with HTTP 400 and the unsupported-ticker detail, and the trace of
external calls is empty: neither an embedding call nor a retrieval call is
made before validation. -/
theorem c2_unsupported_scope_rejected (s : Settings) (emb : Embedder) (store : Store)
    (chunks : List String) (genFails : Bool) (r : ChatRequest)
    (hmsg : r.message ≠ "") (hticker : pyUpper r.ticker ∉ s.supported_tickers) :
    handle_chat s emb store chunks genFails r =
      (ChatStreamResult.httpError 400
        (unsupportedTickerDetail (pyUpper r.ticker) s.supported_tickers), []) := by
  have hempty : r.message.isEmpty = false := by
    rcases hx : r.message.isEmpty with _ | _
    · rfl
    · exact absurd ((String.isEmpty_iff r.message).mp hx) hmsg
  simp [handle_chat, hempty, chat_stream_endpoint, hticker]

/-- C2 witness: the default allow-list rejects ticker ZZZZ with no external calls. -/
theorem c2_witness :
    "hi" ≠ "" ∧ pyUpper "ZZZZ" ∉ (mkSettings "k" "p" "").supported_tickers ∧
    handle_chat (mkSettings "k" "p" "") (fun _ => []) (fun _ _ _ => []) [] false
        ⟨"hi", "ZZZZ", []⟩ =
      (ChatStreamResult.httpError 400
        (unsupportedTickerDetail (pyUpper "ZZZZ") (mkSettings "k" "p" "").supported_tickers), []) :=
  ⟨by decide, by decide,
    c2_unsupported_scope_rejected (mkSettings "k" "p" "") (fun _ => []) (fun _ _ _ => [])
      [] false ⟨"hi", "ZZZZ", []⟩ (by decide) (by decide)⟩

/-- C3: when the store meets its contract on the issued query (at most k
matches, scores non-increasing), retrieve_context with positive k returns at
most k passages with non-increasing relevance scores. -/
theorem c3_retrieval_bounded_and_sorted (emb : Embedder) (store : Store) (s : Settings)
    (q t : String) (k : Nat) (hk : 0 < k)
    (hlen : (store (emb q) (pyUpper t) k).length ≤ k)
    (hsort : List.Chain' (fun a b => matchScore b ≤ matchScore a) (store (emb q) (pyUpper t) k)) :
    (retrieve_context emb store s q t (some k)).1.length ≤ k ∧
    List.Chain' (fun a b => b.score ≤ a.score) (retrieve_context emb store s q t (some k)).1 := by
  have h1 : (retrieve_context emb store s q t (some k)).1 =
      (store (emb q) (pyUpper t) k).map formatMatch := rfl
  constructor
  · rw [h1, List.length_map]; exact hlen
  · rw [h1, List.chain'_map]
    exact hsort

/-- C3 witness: a store returning no matches satisfies the contract for k = 1
and the returned passage list is bounded and sorted. -/
theorem c3_witness :
    0 < 1 ∧
    (retrieve_context (fun _ => []) (fun _ _ _ => []) (mkSettings "k" "p" "")
        "q" "AAPL" (some 1)).1.length ≤ 1 ∧
    List.Chain' (fun a b => b.score ≤ a.score)
      (retrieve_context (fun _ => []) (fun _ _ _ => []) (mkSettings "k" "p" "")
        "q" "AAPL" (some 1)).1 :=
  ⟨Nat.one_pos,
    c3_retrieval_bounded_and_sorted (fun _ => []) (fun _ _ _ => []) (mkSettings "k" "p" "")
      "q" "AAPL" 1 Nat.one_pos (by simp) (by simp)⟩

/-- C4: when retrieval returns zero passages the pipeline does not fail: the
stream still opens with the Contexts event (carrying the empty passage list),
the Generator is still invoked (an LLM stream call appears in the trace, with
the system prompt built from zero passages), the answer tokens are streamed
and the run closes normally with Done; and the system prompt built from zero
passages contains the fixed fallback instruction sentence. -/
theorem c4_zero_passages_still_answers (emb : Embedder) (store : Store) (s : Settings)
    (q t : String) (h : Option (List Turn)) (chunks : List String)
    (hempty : store (emb q) (pyUpper t) s.top_k_results = []) :
    (generate_response_stream emb store s q t h chunks false).events =
      StreamEvent.contexts [] ::
        ((chunks.filter (fun c => !c.isEmpty)).map StreamEvent.token ++ [StreamEvent.done]) ∧
    (generate_response_stream emb store s q t h chunks false).aborted = false ∧
    containsSeg (build_system_prompt [] t) fallbackAnswer ∧
    (generate_response_stream emb store s q t h chunks false).calls =
      [ExternalCall.embed q, ExternalCall.storeQuery (pyUpper t) s.top_k_results,
        ExternalCall.llmStream (stream_messages [] q t (h.getD []))] := by
  have hctx : (retrieve_context emb store s q t none).1 = [] := by
    rw [show (retrieve_context emb store s q t none).1 =
        (store (emb q) (pyUpper t) s.top_k_results).map formatMatch from rfl, hempty]
    rfl
  refine ⟨?_, rfl, ?_, ?_⟩
  · rw [show (generate_response_stream emb store s q t h chunks false).events =
        StreamEvent.contexts (retrieve_context emb store s q t none).1 ::
          ((chunks.filter (fun c => !c.isEmpty)).map StreamEvent.token ++ [StreamEvent.done])
      from rfl, hctx]
  · refine ⟨promptRulesBefore t, promptRulesAfter ++ (context_text [] ++ promptTail), ?_⟩
    show promptRulesBefore t ++ fallbackAnswer ++ promptRulesAfter ++ context_text [] ++ promptTail = _
    simp only [string_append_assoc]
  · rw [show (generate_response_stream emb store s q t h chunks false).calls =
        [ExternalCall.embed q, ExternalCall.storeQuery (pyUpper t) s.top_k_results,
          ExternalCall.llmStream
            (stream_messages (retrieve_context emb store s q t none).1 q t (h.getD []))]
      from rfl, hctx]

/-- C4 witness: a store with an empty namespace still yields a normally closed
stream whose answer is generated from the fallback-bearing prompt. -/
theorem c4_witness :
    ((fun _ _ _ => []) : Store) ([] : Vec) (pyUpper "AAPL") (mkSettings "k" "p" "").top_k_results = [] ∧
    ((generate_response_stream (fun _ => []) (fun _ _ _ => []) (mkSettings "k" "p" "")
        "q" "AAPL" none ["Hi"] false).events =
      StreamEvent.contexts [] ::
        ((["Hi"].filter (fun c => !c.isEmpty)).map StreamEvent.token ++ [StreamEvent.done]) ∧
    (generate_response_stream (fun _ => []) (fun _ _ _ => []) (mkSettings "k" "p" "")
        "q" "AAPL" none ["Hi"] false).aborted = false ∧
    containsSeg (build_system_prompt [] "AAPL") fallbackAnswer ∧
    (generate_response_stream (fun _ => []) (fun _ _ _ => []) (mkSettings "k" "p" "")
        "q" "AAPL" none ["Hi"] false).calls =
      [ExternalCall.embed "q", ExternalCall.storeQuery (pyUpper "AAPL") (mkSettings "k" "p" "").top_k_results,
        ExternalCall.llmStream (stream_messages [] "q" "AAPL" (Option.getD none []))]) :=
  ⟨rfl, c4_zero_passages_still_answers (fun _ => []) (fun _ _ _ => []) (mkSettings "k" "p" "")
    "q" "AAPL" none ["Hi"] rfl⟩

/-- C5: format_chat_history maps every turn with role user to a human message
and every turn with role assistant to an assistant message, preserving order
and content, so on a history of only user or assistant roles the output has
the same length as the input; and a turn with any other role is silently
dropped wherever it occurs, without error. -/
theorem c5_format_history_role_mapping :
    (∀ h : List Turn, (∀ t ∈ h, roleOf t = "user" ∨ roleOf t = "assistant") →
      format_chat_history h =
        h.map (fun t => if roleOf t = "user" then Message.human (contentOf t)
          else Message.ai (contentOf t)) ∧
      (format_chat_history h).length = h.length) ∧
    (∀ (pre suf : List Turn) (t : Turn), roleOf t ≠ "user" → roleOf t ≠ "assistant" →
      format_chat_history (pre ++ t :: suf) = format_chat_history (pre ++ suf)) := by
  constructor
  · intro h hr
    have hmap := format_history_all_known h hr
    exact ⟨hmap, by rw [hmap, List.length_map]⟩
  · intro pre suf t h1 h2
    have hnone : formatTurn t = none := by
      simp [formatTurn, h1, h2]
    simp [format_chat_history, List.filterMap_append, List.filterMap_cons, hnone]

/-- C5 witness: a user and assistant turn map to human and assistant messages
in order, and an interposed turn with role tool is dropped. -/
theorem c5_witness :
    (∀ t ∈ ([⟨some "user", some "hi"⟩, ⟨some "assistant", some "yo"⟩] : List Turn),
      roleOf t = "user" ∨ roleOf t = "assistant") ∧
    (format_chat_history [⟨some "user", some "hi"⟩, ⟨some "assistant", some "yo"⟩] =
      ([⟨some "user", some "hi"⟩, ⟨some "assistant", some "yo"⟩] : List Turn).map
        (fun t => if roleOf t = "user" then Message.human (contentOf t)
          else Message.ai (contentOf t)) ∧
    (format_chat_history [⟨some "user", some "hi"⟩, ⟨some "assistant", some "yo"⟩]).length =
      ([⟨some "user", some "hi"⟩, ⟨some "assistant", some "yo"⟩] : List Turn).length) ∧
    format_chat_history ([⟨some "user", some "hi"⟩] ++
        (⟨some "tool", some "x"⟩ : Turn) :: [⟨some "assistant", some "yo"⟩]) =
      format_chat_history ([⟨some "user", some "hi"⟩] ++ [⟨some "assistant", some "yo"⟩]) :=
  ⟨by decide,
    c5_format_history_role_mapping.1 [⟨some "user", some "hi"⟩, ⟨some "assistant", some "yo"⟩]
      (by decide),
    c5_format_history_role_mapping.2 [⟨some "user", some "hi"⟩] [⟨some "assistant", some "yo"⟩]
      ⟨some "tool", some "x"⟩ (by decide) (by decide)⟩

/-- C6: the system prompt is a function of the passage list and the scope
alone (it is a plain function of those two arguments, with no other state),
and the passages appear in the instruction joined in exactly list order,
which is retrieval order, each rendered with its section label and period. -/
theorem c6_prompt_concatenation_order (ctxs : List Context) (ticker : String) :
    build_system_prompt ctxs ticker =
      promptBefore ticker ++
        (String.intercalate "\n\n" (ctxs.map renderContext) ++ promptTail) ∧
    ∀ c : Context, renderContext c =
      "[Source: " ++ (c.section_header ++ (" | Year: " ++ (c.year ++ ("]\n" ++ c.text_content)))) := by
  constructor
  · show promptRulesBefore ticker ++ fallbackAnswer ++ promptRulesAfter ++
        context_text ctxs ++ promptTail = _
    simp only [promptBefore, context_text, string_append_assoc]
  · intro c
    simp only [renderContext, string_append_assoc]

/-- C7, counterexample: the embed operation performs no validation at all:
given the empty string it does not fail with InvalidInput but still returns
the embedding service result, making the external embedding call with the
empty text. -/
theorem c7_counterexample_embed_empty_calls_service :
    embed_query (fun _ => [1]) "" = ([1], [ExternalCall.embed ""]) :=
  rfl

/-- C7 (amended): a request with empty query text is rejected by the request
model validation (min_length 1 on message) as a client error before the
endpoint body runs, so no external call is made; the embed operation itself
performs no empty-text check and forwards any text, empty included, directly
to the embedding service. -/
theorem c7_empty_message_rejected_before_any_call (s : Settings) (emb : Embedder)
    (store : Store) (chunks : List String) (genFails : Bool) (r : ChatRequest)
    (hmsg : r.message = "") :
    handle_chat s emb store chunks genFails r =
      (ChatStreamResult.httpError 422 "String should have at least 1 character", []) ∧
    ∀ q : String, embed_query emb q = (emb q, [ExternalCall.embed q]) := by
  constructor
  · have hx : r.message.isEmpty = true := by rw [hmsg]; rfl
    simp [handle_chat, hx]
  · intro q
    rfl

/-- C7 witness: the empty message is rejected with no external calls. -/
theorem c7_witness :
    (⟨"", "AAPL", []⟩ : ChatRequest).message = "" ∧
    (handle_chat (mkSettings "k" "p" "") (fun _ => []) (fun _ _ _ => []) [] false
        ⟨"", "AAPL", []⟩ =
      (ChatStreamResult.httpError 422 "String should have at least 1 character", []) ∧
    ∀ q : String, embed_query (fun _ => ([] : Vec)) q = (([] : Vec), [ExternalCall.embed q])) :=
  ⟨rfl, c7_empty_message_rejected_before_any_call (mkSettings "k" "p" "") (fun _ => [])
    (fun _ _ _ => []) [] false ⟨"", "AAPL", []⟩ rfl⟩

/-- C8, counterexample: with both credentials absent, the startup-adjacent
validation in the lifespan handler does not fail: it prints warning lines and
proceeds, completing startup normally. -/
theorem c8_counterexample_startup_only_warns :
    lifespan_startup (mkSettings "" "" "") =
      Except.ok
        ["Starting FinSight RAG API...",
          "Supported tickers: " ++ pyListRepr ["AAPL", "MSFT", "GOOGL"],
          "Pinecone index: finsight-index",
          "OpenAI model: gpt-4o-mini",
          "WARNING: OPENAI_API_KEY not set!",
          "WARNING: PINECONE_API_KEY not set!"] :=
  rfl

/-- C8 (amended): startup validation only logs warnings and never aborts;
missing credentials are instead rejected per request: with a valid ticker,
the chat endpoint fails with HTTP 500 (OpenAI key checked first, then the
Pinecone key) before any upstream call is made. -/
theorem c8_missing_credentials_rejected_per_request (s : Settings) (emb : Embedder)
    (store : Store) (chunks : List String) (genFails : Bool) (r : ChatRequest)
    (hmsg : r.message ≠ "") (hticker : pyUpper r.ticker ∈ s.supported_tickers) :
    (∃ printed, lifespan_startup s = Except.ok printed) ∧
    (s.openai_api_key = "" →
      handle_chat s emb store chunks genFails r =
        (ChatStreamResult.httpError 500 "OpenAI API key not configured", [])) ∧
    (s.openai_api_key ≠ "" → s.pinecone_api_key = "" →
      handle_chat s emb store chunks genFails r =
        (ChatStreamResult.httpError 500 "Pinecone API key not configured", [])) := by
  have hempty := isEmpty_false_of_ne r.message hmsg
  refine ⟨⟨_, rfl⟩, ?_, ?_⟩
  · intro hok
    simp [handle_chat, hempty, chat_stream_endpoint, hticker, hok]
  · intro h1 h2
    simp [handle_chat, hempty, chat_stream_endpoint, hticker, h1, h2]

/-- C8 witness: with no OpenAI key configured, a valid request for AAPL gets
HTTP 500 with no external calls, while startup completes. -/
theorem c8_witness :
    "hi" ≠ "" ∧ pyUpper "AAPL" ∈ (mkSettings "" "" "").supported_tickers ∧
    (mkSettings "" "" "").openai_api_key = "" ∧
    handle_chat (mkSettings "" "" "") (fun _ => []) (fun _ _ _ => []) [] false
        ⟨"hi", "AAPL", []⟩ =
      (ChatStreamResult.httpError 500 "OpenAI API key not configured", []) :=
  ⟨by decide, by decide, rfl,
    (c8_missing_credentials_rejected_per_request (mkSettings "" "" "") (fun _ => [])
      (fun _ _ _ => []) [] false ⟨"hi", "AAPL", []⟩ (by decide) (by decide)).2.1 rfl⟩

/-- C9: the passage list returned by retrieve_context is in one-to-one order-
preserving correspondence with the store matches, and every returned passage
carries all six fields, each equal to the store-supplied value when present
and to the documented default when absent (score 0, section header Unknown
Section, empty string for the other string fields); the Context type has
exactly the six fields id, score, text_content, section_header, source_url
and year, so no consumer can see an absent field. -/
theorem c9_passage_fields_defaulted (emb : Embedder) (store : Store) (s : Settings)
    (q t : String) (k : Option Nat) :
    List.Forall₂
      (fun (m : StoreMatch) (ctx : Context) =>
        ctx.id = m.id.getD "" ∧
        ctx.score = m.score.getD 0 ∧
        ctx.text_content = (m.metadata.getD MatchMetadata.empty).text_content.getD "" ∧
        ctx.section_header =
          (m.metadata.getD MatchMetadata.empty).section_header.getD "Unknown Section" ∧
        ctx.source_url = (m.metadata.getD MatchMetadata.empty).source_url.getD "" ∧
        ctx.year = (m.metadata.getD MatchMetadata.empty).year.getD "")
      (store (emb q) (pyUpper t) (k.getD s.top_k_results))
      (retrieve_context emb store s q t k).1 := by
  rw [show (retrieve_context emb store s q t k).1 =
      (store (emb q) (pyUpper t) (k.getD s.top_k_results)).map formatMatch from rfl]
  rw [List.forall₂_map_right_iff]
  exact List.forall₂_same.2 fun m _ => ⟨rfl, rfl, rfl, rfl, rfl, rfl⟩

/-- C10: for the same query, ticker, history and collaborators, the streaming
path and the synchronous path assemble exactly the same message sequence for
the Generator: the system prompt first, then the formatted history in order,
then the current query as the final human message; the traces show the same
message list handed to the streaming and the blocking LLM invocation. -/
theorem c10_stream_and_sync_same_messages (emb : Embedder) (store : Store) (s : Settings)
    (q t : String) (h : Option (List Turn)) (chunks : List String) (genFails : Bool)
    (llmText : String) :
    (∀ (ctxs : List Context) (hist : List Turn),
      stream_messages ctxs q t hist = sync_messages ctxs q t hist) ∧
    ∃ M : List Message,
      (generate_response_stream emb store s q t h chunks genFails).calls =
        [ExternalCall.embed q, ExternalCall.storeQuery (pyUpper t) s.top_k_results,
          ExternalCall.llmStream M] ∧
      (generate_response emb store s q t h llmText).2 =
        [ExternalCall.embed q, ExternalCall.storeQuery (pyUpper t) s.top_k_results,
          ExternalCall.llmInvoke M] ∧
      M = Message.system (build_system_prompt (retrieve_context emb store s q t none).1 t) ::
        (format_chat_history (h.getD []) ++ [Message.human q]) := by
  refine ⟨fun ctxs hist => rfl,
    ⟨stream_messages (retrieve_context emb store s q t none).1 q t (h.getD []), rfl, rfl, ?_⟩⟩
  show [Message.system (build_system_prompt (retrieve_context emb store s q t none).1 t)] ++
      format_chat_history (h.getD []) ++ [Message.human q] = _
  simp

end FinSight
